import Mathlib

/-!
Shallow embedding of the client-side data-orchestration layer of the
market-observability console (`src/frontend/src/App.jsx`).

The React component's state hooks become the fields of `SessionState`;
each async operation (`refreshWatchlist`, `loadTickerDetail`, `addTicker`,
`removeTicker`, the two `useEffect` bodies, and the click handlers) becomes
a pure state transformer that receives the network responses it would
await as explicit arguments.  A fetch outcome is `Except String P`:
`.error msg` is a rejected `getJson`/`fetch` promise carrying the thrown
message, `.ok p` a parsed JSON payload.  JSON fields that may be absent or
null are `Option`s; JS truthiness tests on them are spelled out at each
use site exactly as the source performs them.
-/

/-- One element of a `/prices/{ticker}` response's `items` array.  The
claims never compute on the numeric value, so `price` is carried as an
`Int`. -/
structure PricePoint where
  price : Int
  deriving DecidableEq, Repr

/-- One element of a `/news/{ticker}` response's `items` array. -/
structure NewsItem where
  headline : String
  source : String
  deriving DecidableEq, Repr

/-- A `/latest/{ticker}` response: the analysis record for a ticker. -/
structure AnalysisRecord where
  status : String
  summary : String
  deriving DecidableEq, Repr

/-- A `GET /watchlist` response body.  `tickers := none` models a payload
whose `tickers` field is absent or null (`payload.tickers` is
null/undefined in the source). -/
structure WatchlistPayload where
  tickers : Option (List String)
  deriving DecidableEq, Repr

/-- A `GET /prices/{ticker}` response body; `items := none` models a
missing/null `items` field (the source guards with `|| []`). -/
structure PricesPayload where
  items : Option (List PricePoint)
  deriving DecidableEq, Repr

/-- A `GET /news/{ticker}` response body; `has_next := none` models a
missing field (the source coerces with `Boolean(...)`). -/
structure NewsPayload where
  items : Option (List NewsItem)
  has_next : Option Bool
  deriving DecidableEq, Repr

/-- The visible outcome of a raw `fetch` used by `addTicker` /
`removeTicker`: `response.ok`, `response.status`, and the body text read
by `response.text()`. -/
structure HttpResponse where
  ok : Bool
  status : Nat
  body : String
  deriving DecidableEq, Repr

/-- The React component state: one field per `useState` hook of `App`. -/
structure SessionState where
  watchlist : List String
  selectedTicker : String
  customTicker : String
  prices : List PricePoint
  news : List NewsItem
  newsPage : Nat
  newsHasNext : Bool
  latest : Option AnalysisRecord
  busy : Bool
  error : String
  deriving DecidableEq, Repr

/-- The `useState` initial values of `App`. -/
def initialState : SessionState :=
  { watchlist := [], selectedTicker := "", customTicker := "", prices := [],
    news := [], newsPage := 1, newsHasNext := false, latest := none,
    busy := false, error := "" }

/-- `SUGGESTED_TICKERS` from the source. -/
def SUGGESTED_TICKERS : List String :=
  ["AAPL", "MSFT", "TSLA", "NVDA", "AMZN", "GOOGL", "META"]

/-- JS `String.prototype.trim`: drop whitespace from both ends, modelled
structurally on the character list. -/
def jsTrim (s : String) : String :=
  String.mk (((s.data.dropWhile Char.isWhitespace).reverse.dropWhile
    Char.isWhitespace).reverse)

/-- JS `String.prototype.toUpperCase` restricted to the ASCII range the
tickers live in: uppercase every character. -/
def jsToUpperCase (s : String) : String :=
  String.mk (s.data.map Char.toUpper)

/-- `sanitizeTicker(value)` from the source: `value.trim().toUpperCase()`. -/
def sanitizeTicker (value : String) : String :=
  jsToUpperCase (jsTrim value)

/-- `selectedTicker ? watchlist.includes(selectedTicker) : false` — the
`selectedInWatchlist` memo of `App`. -/
def selectedInWatchlist (s : SessionState) : Bool :=
  if s.selectedTicker = "" then false else s.watchlist.contains s.selectedTicker

/-- The `disabled` expression of each watchlist row's Remove button:
`!selectedInWatchlist || busy`.  The row's own `ticker` is taken as an
argument to mirror the per-row rendering, but the source expression does
not consult it. -/
def removeButtonDisabled (s : SessionState) (ticker : String) : Bool :=
  !selectedInWatchlist s || s.busy

/-- The message of the TypeError raised by
`payload.tickers.includes(selectedTicker)` when `tickers` is null. -/
def nullIncludesError : String :=
  "Cannot read properties of null (reading 'includes')"

/-- `refreshWatchlist()` from the source.  Given the `GET /watchlist`
outcome, returns the state after the mutations that executed together
with `none` on normal return or `some msg` when the body threw (a
rejected `getJson`, or the TypeError on a null `tickers` field after
`setWatchlist` already ran). -/
def refreshWatchlist (s : SessionState) (resp : Except String WatchlistPayload) :
    SessionState × Option String :=
  match resp with
  | .error msg => (s, some msg)
  | .ok payload =>
    let s1 := { s with watchlist := payload.tickers.getD [] }
    if s.selectedTicker = "" then
      match payload.tickers with
      | some (t :: _) => ({ s1 with selectedTicker := t }, none)
      | _ => (s1, none)
    else
      match payload.tickers with
      | none => (s1, some nullIncludesError)
      | some l =>
        if s.selectedTicker ∈ l then (s1, none)
        else ({ s1 with selectedTicker := l.headD "" }, none)

/-- The four `set*` calls of `loadTickerDetail` that run once
`Promise.all` resolves (source lines 107–110); the source runs them
unconditionally at resolution time, with no check that the requesting
(ticker, page) pair is still current. -/
def commitDetail (s : SessionState) (pp : PricesPayload) (np : NewsPayload)
    (lp : AnalysisRecord) : SessionState :=
  { s with prices := pp.items.getD [], news := np.items.getD [],
           newsHasNext := np.has_next.getD false, latest := some lp }

/-- `loadTickerDetail(ticker, page)` from the source.  The three
concurrent fetch outcomes are explicit arguments; `Promise.all` rejects
when any of them rejects (the recorded message is the first rejection in
argument order), and only when all three resolve does the commit run. -/
def loadTickerDetail (s : SessionState) (ticker : String) (page : Nat)
    (priceResp : Except String PricesPayload)
    (newsResp : Except String NewsPayload)
    (latestResp : Except String AnalysisRecord) :
    SessionState × Option String :=
  if ticker = "" then
    ({ s with prices := [], news := [], latest := none }, none)
  else
    match priceResp, newsResp, latestResp with
    | .error msg, _, _ => (s, some msg)
    | .ok _, .error msg, _ => (s, some msg)
    | .ok _, .ok _, .error msg => (s, some msg)
    | .ok pp, .ok np, .ok lp => (commitDetail s pp np lp, none)

/-- `setBusy(true); setError("")` — the shared prologue of every
operation. -/
def beginOp (s : SessionState) : SessionState :=
  { s with busy := true, error := "" }

/-- The mount effect (source lines 113–119): begin, run
`refreshWatchlist`, record `Failed loading watchlist: …` on rejection,
and clear `busy` in `finally`. -/
def initialWatchlistEffect (s : SessionState)
    (resp : Except String WatchlistPayload) : SessionState :=
  let r := refreshWatchlist (beginOp s) resp
  match r.2 with
  | some msg =>
      { r.1 with error := "Failed loading watchlist: " ++ msg, busy := false }
  | none => { r.1 with busy := false }

/-- The detail-load effect (source lines 121–130): return immediately on
an empty selection, otherwise begin, run
`loadTickerDetail(selectedTicker, newsPage)`, record
`Failed loading detail: …` on rejection, and clear `busy` in `finally`. -/
def detailLoadEffect (s : SessionState)
    (priceResp : Except String PricesPayload)
    (newsResp : Except String NewsPayload)
    (latestResp : Except String AnalysisRecord) : SessionState :=
  if s.selectedTicker = "" then s
  else
    let r := loadTickerDetail (beginOp s) s.selectedTicker s.newsPage
        priceResp newsResp latestResp
    match r.2 with
    | some msg =>
        { r.1 with error := "Failed loading detail: " ++ msg, busy := false }
    | none => { r.1 with busy := false }

/-- `addTicker(ticker)` from the source: sanitize, return when empty,
otherwise begin, POST `/watchlist`, treat non-ok non-409 as thrown,
re-run `refreshWatchlist`, select the clean ticker, reset the page and
the input; any throw is caught into `Failed adding ticker: …` and
`finally` clears `busy`. -/
def addTicker (s : SessionState) (ticker : String)
    (post : Except String HttpResponse)
    (refreshResp : Except String WatchlistPayload) : SessionState :=
  let cleanTicker := sanitizeTicker ticker
  if cleanTicker = "" then s
  else
    let s1 := beginOp s
    match post with
    | .error msg =>
        { s1 with error := "Failed adding ticker: " ++ msg, busy := false }
    | .ok response =>
      if !response.ok && response.status ≠ 409 then
        { s1 with error := "Failed adding ticker: " ++ response.body,
                  busy := false }
      else
        let r := refreshWatchlist s1 refreshResp
        match r.2 with
        | some msg =>
            { r.1 with error := "Failed adding ticker: " ++ msg, busy := false }
        | none =>
            { r.1 with selectedTicker := cleanTicker, newsPage := 1,
                       customTicker := "", busy := false }

/-- `removeTicker(ticker)` from the source: begin, DELETE
`/watchlist/{ticker}` (no client-side check of `ticker`), throw on
non-ok, re-run `refreshWatchlist`, reset the page; any throw is caught
into `Failed removing ticker: …` and `finally` clears `busy`. -/
def removeTicker (s : SessionState) (ticker : String)
    (del : Except String HttpResponse)
    (refreshResp : Except String WatchlistPayload) : SessionState :=
  let s1 := beginOp s
  match del with
  | .error msg =>
      { s1 with error := "Failed removing ticker: " ++ msg, busy := false }
  | .ok response =>
    if !response.ok then
      { s1 with error := "Failed removing ticker: " ++ response.body,
                busy := false }
    else
      let r := refreshWatchlist s1 refreshResp
      match r.2 with
      | some msg =>
          { r.1 with error := "Failed removing ticker: " ++ msg, busy := false }
      | none => { r.1 with newsPage := 1, busy := false }

/-- The `onClick` shared by the suggested-ticker chips and the watchlist
rows: `setSelectedTicker(ticker); setNewsPage(1)`. -/
def selectTickerClick (s : SessionState) (ticker : String) : SessionState :=
  { s with selectedTicker := ticker, newsPage := 1 }

/-- The invariant claimed in the spec: the selected ticker, if set, is a
member of the watchlist. -/
def selectionInvariant (s : SessionState) : Prop :=
  s.selectedTicker = "" ∨ s.selectedTicker ∈ s.watchlist

instance (s : SessionState) : Decidable (selectionInvariant s) := by
  unfold selectionInvariant
  infer_instance

/-! ### Event-loop model of overlapping detail loads

The detail-load effect issues a `loadTickerDetail(selectedTicker,
newsPage)` whenever the pair changes; the continuation holding the four
`set*` calls runs whenever its `Promise.all` resolves.  The source
attaches no tag check to that continuation, so resolution order decides
which payload ends up in view state.  `LoadMachine` records the session
state together with the in-flight (ticker, page) pairs, oldest first. -/

/-- Session state plus in-flight detail loads (issue order, oldest
first). -/
structure LoadMachine where
  session : SessionState
  pending : List (String × Nat)
  deriving DecidableEq, Repr

/-- An event-loop step: either the user selects (ticker, page) and the
effect issues a load for it, or the in-flight load at index `i` resolves
successfully with the given payloads. -/
inductive LoadEvent where
  | issue (ticker : String) (page : Nat)
  | resolveOk (i : Nat) (pp : PricesPayload) (np : NewsPayload)
      (lp : AnalysisRecord)
  deriving DecidableEq, Repr

/-- One step of the event loop.  `issue` runs the synchronous prefix of
the detail-load effect (guard on empty ticker, `setBusy(true)`,
`setError("")`) and records the in-flight pair; `resolveOk i` runs the
continuation of the `i`-th in-flight load — exactly `commitDetail`
followed by the `finally` — with no comparison against the current
(selectedTicker, newsPage), because the source performs none. -/
def stepLoad (m : LoadMachine) (e : LoadEvent) : LoadMachine :=
  match e with
  | .issue t p =>
    if t = "" then m
    else
      let s1 := { m.session with
                    selectedTicker := t, newsPage := p,
                    busy := true, error := "" }
      { session := s1, pending := m.pending ++ [(t, p)] }
  | .resolveOk i pp np lp =>
    if i < m.pending.length then
      { session := { commitDetail m.session pp np lp with busy := false },
        pending := m.pending.eraseIdx i }
    else m

/-- Run a sequence of event-loop steps. -/
def runLoads (m : LoadMachine) (es : List LoadEvent) : LoadMachine :=
  es.foldl stepLoad m

/-- Price payload used in the overlapping-load scenario for AAPL. -/
def applePrices : PricesPayload := ⟨some [⟨180⟩]⟩

/-- Price payload used in the overlapping-load scenario for MSFT. -/
def msftPrices : PricesPayload := ⟨some [⟨410⟩]⟩

/-- News payload used in the overlapping-load scenario for AAPL. -/
def appleNews : NewsPayload := ⟨some [⟨"aapl headline", "wire"⟩], some false⟩

/-- News payload used in the overlapping-load scenario for MSFT. -/
def msftNews : NewsPayload := ⟨some [⟨"msft headline", "wire"⟩], some false⟩

/-- Analysis payload used in the overlapping-load scenario for AAPL. -/
def appleAnalysis : AnalysisRecord := ⟨"done", "aapl summary"⟩

/-- Analysis payload used in the overlapping-load scenario for MSFT. -/
def msftAnalysis : AnalysisRecord := ⟨"done", "msft summary"⟩

/-- The overlapping-load scenario: from a freshly refreshed watchlist
(selection AAPL), the effect issues a load for (AAPL, 1); the user
switches to MSFT so a load for (MSFT, 1) is issued before the first
resolves; the MSFT load resolves first, then the abandoned AAPL load
resolves. -/
def staleLoadTrace : LoadMachine :=
  runLoads
    ⟨initialWatchlistEffect initialState (Except.ok ⟨some ["AAPL", "MSFT"]⟩), []⟩
    [LoadEvent.issue "AAPL" 1,
     LoadEvent.issue "MSFT" 1,
     LoadEvent.resolveOk 1 msftPrices msftNews msftAnalysis,
     LoadEvent.resolveOk 0 applePrices appleNews appleAnalysis]

/-! ## Helper lemmas -/

/-- On a well-formed `tickers` list, `refreshWatchlist` replaces the
watchlist with the server's list, does not throw, and leaves the `error`
and `busy` fields untouched. -/
theorem refreshWatchlist_ok_spec (s : SessionState) (l : List String) :
    (refreshWatchlist s (Except.ok ⟨some l⟩)).1.watchlist = l ∧
    (refreshWatchlist s (Except.ok ⟨some l⟩)).2 = none ∧
    (refreshWatchlist s (Except.ok ⟨some l⟩)).1.error = s.error ∧
    (refreshWatchlist s (Except.ok ⟨some l⟩)).1.busy = s.busy := by
  unfold refreshWatchlist
  by_cases h : s.selectedTicker = ""
  · cases l with
    | nil => simp [h]
    | cons a t => simp [h]
  · by_cases hm : s.selectedTicker ∈ l
    · simp [h, hm]
    · cases l with
      | nil => simp [h, hm]
      | cons a t => simp [h, hm]

/-- A nonempty selection that survives into the new list is kept. -/
theorem refreshWatchlist_ok_keep (s : SessionState) (l : List String)
    (h : s.selectedTicker ≠ "") (hm : s.selectedTicker ∈ l) :
    (refreshWatchlist s (Except.ok ⟨some l⟩)).1.selectedTicker
      = s.selectedTicker := by
  simp [refreshWatchlist, h, hm]

/-- An empty or dropped selection is replaced by the new list's head
(the empty string when the list is empty). -/
theorem refreshWatchlist_ok_head (s : SessionState) (l : List String)
    (h : s.selectedTicker = "" ∨ s.selectedTicker ∉ l) :
    (refreshWatchlist s (Except.ok ⟨some l⟩)).1.selectedTicker
      = l.headD "" := by
  by_cases h0 : s.selectedTicker = ""
  · cases l with
    | nil => simp [refreshWatchlist, h0]
    | cons a t => simp [refreshWatchlist, h0]
  · have hm : s.selectedTicker ∉ l := h.resolve_left h0
    cases l with
    | nil => simp [refreshWatchlist, h0, hm]
    | cons a t => simp [refreshWatchlist, h0, hm]

/-- The success path of `addTicker`: with a nonempty sanitized ticker, an
accepted POST (2xx or 409), and a well-formed refresh payload, the result
is the refreshed state with the clean ticker selected, the page reset,
the input cleared, and `busy` released. -/
theorem addTicker_ok_result (s : SessionState) (raw : String)
    (r : HttpResponse) (l : List String) (hne : sanitizeTicker raw ≠ "")
    (hpass : r.ok = true ∨ r.status = 409) :
    addTicker s raw (Except.ok r) (Except.ok ⟨some l⟩) =
      { (refreshWatchlist (beginOp s) (Except.ok ⟨some l⟩)).1 with
          selectedTicker := sanitizeTicker raw, newsPage := 1,
          customTicker := "", busy := false } := by
  have hcond : (!r.ok && decide (r.status ≠ 409)) = false := by
    rcases hpass with hok | h409
    · rw [hok]; rfl
    · rw [h409]
      have hd : decide ((409 : Nat) ≠ 409) = false := by decide
      rw [hd, Bool.and_false]
  simp only [addTicker]
  rw [if_neg hne, if_neg (by rw [hcond]; exact Bool.false_ne_true),
      (refreshWatchlist_ok_spec (beginOp s) l).2.1]

/-- The success path of `removeTicker`: with an accepted DELETE and a
well-formed refresh payload, the result is the refreshed state with the
page reset and `busy` released — no client-side check of the target. -/
theorem removeTicker_ok_result (s : SessionState) (t : String)
    (r : HttpResponse) (l : List String) (hok : r.ok = true) :
    removeTicker s t (Except.ok r) (Except.ok ⟨some l⟩) =
      { (refreshWatchlist (beginOp s) (Except.ok ⟨some l⟩)).1 with
          newsPage := 1, busy := false } := by
  simp only [removeTicker]
  rw [if_neg (by rw [hok]; exact Bool.false_ne_true),
      (refreshWatchlist_ok_spec (beginOp s) l).2.1]

/-- Two POST responses that both pass the `!ok && status !== 409` check
drive `addTicker` to identical results: the response object is not
consulted again. -/
theorem addTicker_pass (s : SessionState) (raw : String)
    (r1 r2 : HttpResponse) (rp : Except String WatchlistPayload)
    (h1 : (!r1.ok && decide (r1.status ≠ 409)) = false)
    (h2 : (!r2.ok && decide (r2.status ≠ 409)) = false) :
    addTicker s raw (Except.ok r1) rp = addTicker s raw (Except.ok r2) rp := by
  by_cases hne : sanitizeTicker raw = ""
  · simp [addTicker, hne]
  · simp only [addTicker]
    rw [if_neg hne, if_neg hne,
        if_neg (by rw [h1]; exact Bool.false_ne_true),
        if_neg (by rw [h2]; exact Bool.false_ne_true)]

/-- The mount effect releases `busy` on every exit path. -/
theorem initialWatchlistEffect_busy (s : SessionState)
    (w : Except String WatchlistPayload) :
    (initialWatchlistEffect s w).busy = false := by
  simp only [initialWatchlistEffect]
  cases hE : (refreshWatchlist (beginOp s) w).2 <;> rfl

/-- The detail-load effect releases `busy` on every exit path once it
runs (nonempty selection). -/
theorem detailLoadEffect_busy (s : SessionState)
    (pr : Except String PricesPayload) (nr : Except String NewsPayload)
    (lr : Except String AnalysisRecord) (h : s.selectedTicker ≠ "") :
    (detailLoadEffect s pr nr lr).busy = false := by
  simp only [detailLoadEffect]
  rw [if_neg h]
  cases hE : (loadTickerDetail (beginOp s) s.selectedTicker s.newsPage
      pr nr lr).2 <;> rfl

/-- `addTicker` releases `busy` on every exit path once it runs
(nonempty sanitized ticker). -/
theorem addTicker_busy (s : SessionState) (raw : String)
    (post : Except String HttpResponse) (w : Except String WatchlistPayload)
    (h : sanitizeTicker raw ≠ "") :
    (addTicker s raw post w).busy = false := by
  cases post with
  | error m => simp [addTicker, h]
  | ok r =>
    simp only [addTicker]
    rw [if_neg h]
    by_cases hc : (!r.ok && decide (r.status ≠ 409)) = true
    · rw [if_pos hc]
    · rw [if_neg hc]
      cases hE : (refreshWatchlist (beginOp s) w).2 <;> rfl

/-- `removeTicker` releases `busy` on every exit path. -/
theorem removeTicker_busy (s : SessionState) (t : String)
    (del : Except String HttpResponse)
    (w : Except String WatchlistPayload) :
    (removeTicker s t del w).busy = false := by
  cases del with
  | error m => simp [removeTicker]
  | ok r =>
    simp only [removeTicker]
    by_cases hc : (!r.ok) = true
    · rw [if_pos hc]
    · rw [if_neg hc]
      cases hE : (refreshWatchlist (beginOp s) w).2 <;> rfl

/-! ## Claims -/

/-- Claim C1: the spec requires that when two `load(ticker, page)` calls
overlap, only the most-recently-issued pair's result is ever applied and
abandoned results are discarded on arrival.  The source attaches no tag
check to the resolution continuation, so in the scenario where loads for
(AAPL, 1) and then (MSFT, 1) are issued before either resolves and the
MSFT load resolves first, the abandoned AAPL result is still committed on
arrival, overwriting the newer MSFT data while MSFT is the selection. -/
theorem claim_C1_stale_commit_eval :
    staleLoadTrace.session.selectedTicker = "MSFT" ∧
    staleLoadTrace.pending = [] ∧
    staleLoadTrace.session.prices = applePrices.items.getD [] ∧
    staleLoadTrace.session.news = appleNews.items.getD [] ∧
    staleLoadTrace.session.latest = some appleAnalysis ∧
    applePrices ≠ msftPrices :=
  ⟨rfl, rfl, rfl, rfl, rfl, by decide⟩

/-- Claim C6: `refreshWatchlist` on a well-formed `tickers` list replaces
the watchlist with the server's list, keeps the selection when it is a
nonempty member of the new list, and otherwise selects the new list's
first element (the empty string when the list is empty). -/
theorem claim_C6_refresh_selection (s : SessionState) (l : List String) :
    (refreshWatchlist s (Except.ok ⟨some l⟩)).1.watchlist = l ∧
    (refreshWatchlist s (Except.ok ⟨some l⟩)).2 = none ∧
    (s.selectedTicker ≠ "" → s.selectedTicker ∈ l →
      (refreshWatchlist s (Except.ok ⟨some l⟩)).1.selectedTicker
        = s.selectedTicker) ∧
    ((s.selectedTicker = "" ∨ s.selectedTicker ∉ l) →
      (refreshWatchlist s (Except.ok ⟨some l⟩)).1.selectedTicker
        = l.headD "") := by
  unfold refreshWatchlist
  by_cases h : s.selectedTicker = ""
  · cases l with
    | nil => simp [h]
    | cons a t => simp [h]
  · by_cases hm : s.selectedTicker ∈ l
    · simp [h, hm]
    · cases l with
      | nil => simp [h, hm]
      | cons a t => simp [h, hm]

/-- Witness for claim C6 at a concrete refresh whose new list drops the
previously selected ticker: the first element of the new list is
selected. -/
theorem claim_C6_witness :
    ((refreshWatchlist
        { initialState with selectedTicker := "TSLA", watchlist := ["TSLA"] }
        (Except.ok ⟨some ["AAPL", "MSFT"]⟩)).1.watchlist = ["AAPL", "MSFT"]) ∧
    ((refreshWatchlist
        { initialState with selectedTicker := "TSLA", watchlist := ["TSLA"] }
        (Except.ok ⟨some ["AAPL", "MSFT"]⟩)).1.selectedTicker = "AAPL") := by
  have h := claim_C6_refresh_selection
      { initialState with selectedTicker := "TSLA", watchlist := ["TSLA"] }
      ["AAPL", "MSFT"]
  exact ⟨h.1, (h.2.2.2 (Or.inr (by decide))).trans (by decide)⟩

/-- Claim C9: when the watchlist payload's `tickers` field is null and a
ticker is selected, `refreshWatchlist` first replaces the watchlist with
the empty list and then throws while checking membership, leaving the
selection untouched — a partial mutation. -/
theorem claim_C9_null_tickers_partial_mutation (s : SessionState)
    (h : s.selectedTicker ≠ "") :
    refreshWatchlist s (Except.ok ⟨none⟩) =
      ({ s with watchlist := [] }, some nullIncludesError) := by
  simp [refreshWatchlist, h]

/-- Witness for claim C9 at a concrete session with AAPL selected. -/
theorem claim_C9_witness :
    refreshWatchlist
        { initialState with selectedTicker := "AAPL", watchlist := ["AAPL"] }
        (Except.ok ⟨none⟩) =
      ({ initialState with selectedTicker := "AAPL", watchlist := [] },
        some nullIncludesError) :=
  claim_C9_null_tickers_partial_mutation
    { initialState with selectedTicker := "AAPL", watchlist := ["AAPL"] }
    (by decide)

/-- Claim C10: when the selection is empty the detail-load effect returns
before invoking `loadTickerDetail`, so the whole session state — prices,
news, and analysis included — is retained; the reset branch of
`loadTickerDetail` for an empty ticker exists but is not reached from the
effect. -/
theorem claim_C10_empty_selection_frame (s : SessionState)
    (pr : Except String PricesPayload) (nr : Except String NewsPayload)
    (lr : Except String AnalysisRecord) (h : s.selectedTicker = "") :
    detailLoadEffect s pr nr lr = s ∧
    (∀ page, (loadTickerDetail s "" page pr nr lr).1.prices = [] ∧
      (loadTickerDetail s "" page pr nr lr).1.news = [] ∧
      (loadTickerDetail s "" page pr nr lr).1.latest = none) := by
  constructor
  · simp [detailLoadEffect, h]
  · intro page
    simp [loadTickerDetail]

/-- Witness for claim C10 at a concrete session holding TSLA data with an
empty selection: the effect leaves the state unchanged. -/
theorem claim_C10_witness :
    detailLoadEffect
        { initialState with
            prices := [⟨250⟩], news := [⟨"tsla headline", "wire"⟩],
            latest := some ⟨"done", "tsla summary"⟩ }
        (Except.error "500 boom") (Except.error "500 boom")
        (Except.error "500 boom") =
      { initialState with
          prices := [⟨250⟩], news := [⟨"tsla headline", "wire"⟩],
          latest := some ⟨"done", "tsla summary"⟩ } :=
  (claim_C10_empty_selection_frame
    { initialState with
        prices := [⟨250⟩], news := [⟨"tsla headline", "wire"⟩],
        latest := some ⟨"done", "tsla summary"⟩ }
    (Except.error "500 boom") (Except.error "500 boom")
    (Except.error "500 boom") (by decide)).1

/-- Claim C2: the spec's invariant — the selected ticker, if set, is a
member of the watchlist — is violated by the suggested-ticker chips: from
the reachable state after refreshing the watchlist to [AAPL], clicking
the TSLA chip selects TSLA, which is nonempty and not in the
watchlist. -/
theorem claim_C2_counterexample :
    "TSLA" ∈ SUGGESTED_TICKERS ∧
    ¬ selectionInvariant
        (selectTickerClick
          (initialWatchlistEffect initialState (Except.ok ⟨some ["AAPL"]⟩))
          "TSLA") := by
  refine ⟨by decide, ?_⟩
  intro hinv
  have hsel : (selectTickerClick
      (initialWatchlistEffect initialState (Except.ok ⟨some ["AAPL"]⟩))
      "TSLA").selectedTicker = "TSLA" := rfl
  have hwl : (selectTickerClick
      (initialWatchlistEffect initialState (Except.ok ⟨some ["AAPL"]⟩))
      "TSLA").watchlist = ["AAPL"] := rfl
  simp only [selectionInvariant] at hinv
  rcases hinv with h | h
  · rw [hsel] at h
    exact absurd h (by decide)
  · rw [hsel, hwl] at h
    exact absurd h (by decide)

/-- Claim C2 (amended): `refreshWatchlist` on a well-formed tickers list
establishes the invariant, and selecting a ticker from the watchlist rows
preserves it; the suggested-ticker quick-select, however, may select a
ticker outside the watchlist, so the invariant does not hold for every
operation that sets the selection. -/
theorem claim_C2_amended (s : SessionState) (l : List String) (t : String) :
    selectionInvariant (refreshWatchlist s (Except.ok ⟨some l⟩)).1 ∧
    (t ∈ s.watchlist → selectionInvariant (selectTickerClick s t)) := by
  constructor
  · by_cases h : s.selectedTicker = "" ∨ s.selectedTicker ∉ l
    · have h1 := refreshWatchlist_ok_head s l h
      have h2 := (refreshWatchlist_ok_spec s l).1
      cases l with
      | nil => exact Or.inl (h1.trans rfl)
      | cons a tl =>
          refine Or.inr ?_
          rw [h1, h2]
          exact List.mem_cons_self a tl
    · push_neg at h
      refine Or.inr ?_
      rw [refreshWatchlist_ok_keep s l h.1 h.2,
          (refreshWatchlist_ok_spec s l).1]
      exact h.2
  · intro ht
    exact Or.inr ht

/-- Witness for the amended claim C2: a concrete refresh and a concrete
in-watchlist row selection both satisfy the invariant. -/
theorem claim_C2_witness :
    selectionInvariant
      (refreshWatchlist { initialState with watchlist := ["AAPL"] }
        (Except.ok ⟨some ["AAPL"]⟩)).1 ∧
    selectionInvariant
      (selectTickerClick { initialState with watchlist := ["AAPL"] }
        "AAPL") := by
  have h := claim_C2_amended { initialState with watchlist := ["AAPL"] }
      ["AAPL"] "AAPL"
  exact ⟨h.1, h.2 (by decide)⟩

/-- Claim C3: the claim says the remove affordance for a row `t` with
`selectedTicker ≠ t` is disabled and `remove(t)` never issues a network
call.  In the reachable state with watchlist [AAPL, MSFT] and AAPL
selected, the MSFT row's remove button is enabled, and `removeTicker`
on MSFT goes through the DELETE round-trip (the refreshed watchlist is
applied). -/
theorem claim_C3_counterexample :
    (initialWatchlistEffect initialState
      (Except.ok ⟨some ["AAPL", "MSFT"]⟩)).selectedTicker = "AAPL" ∧
    "MSFT" ∈ (initialWatchlistEffect initialState
      (Except.ok ⟨some ["AAPL", "MSFT"]⟩)).watchlist ∧
    ¬ ((initialWatchlistEffect initialState
      (Except.ok ⟨some ["AAPL", "MSFT"]⟩)).selectedTicker = "MSFT") ∧
    removeButtonDisabled (initialWatchlistEffect initialState
      (Except.ok ⟨some ["AAPL", "MSFT"]⟩)) "MSFT" = false ∧
    (removeTicker (initialWatchlistEffect initialState
        (Except.ok ⟨some ["AAPL", "MSFT"]⟩)) "MSFT"
      (Except.ok ⟨true, 200, ""⟩)
      (Except.ok ⟨some ["AAPL"]⟩)).watchlist = ["AAPL"] := by
  refine ⟨rfl, ?_, ?_, rfl, rfl⟩
  · have hw : (initialWatchlistEffect initialState
        (Except.ok ⟨some ["AAPL", "MSFT"]⟩)).watchlist
        = ["AAPL", "MSFT"] := rfl
    rw [hw]
    decide
  · intro hch
    have h1 : (initialWatchlistEffect initialState
        (Except.ok ⟨some ["AAPL", "MSFT"]⟩)).selectedTicker = "AAPL" := rfl
    rw [h1] at hch
    exact absurd hch (by decide)

/-- Claim C3 (amended): the remove affordance is uniform across rows —
every row's remove button is disabled exactly when the selected ticker is
not a member of the watchlist (or an operation is busy), independent of
the row's own ticker; whenever the selected ticker is in the watchlist
and nothing is busy the button is enabled for every row, and
`removeTicker(t)` performs the DELETE round-trip with no client-side
check of `t`. -/
theorem claim_C3_amended (s : SessionState) (t u : String) (r : HttpResponse)
    (l : List String) :
    removeButtonDisabled s t = removeButtonDisabled s u ∧
    (selectedInWatchlist s = true → s.busy = false →
      removeButtonDisabled s t = false) ∧
    (selectedInWatchlist s = false → removeButtonDisabled s t = true) ∧
    (r.ok = true →
      (removeTicker s t (Except.ok r) (Except.ok ⟨some l⟩)).watchlist = l ∧
      (removeTicker s t (Except.ok r) (Except.ok ⟨some l⟩)).newsPage = 1 ∧
      (removeTicker s t (Except.ok r) (Except.ok ⟨some l⟩)).error = "") := by
  refine ⟨rfl, ?_, ?_, ?_⟩
  · intro h1 h2
    simp [removeButtonDisabled, h1, h2]
  · intro h1
    simp [removeButtonDisabled, h1]
  · intro hok
    rw [removeTicker_ok_result s t r l hok]
    exact ⟨(refreshWatchlist_ok_spec (beginOp s) l).1, rfl,
      (refreshWatchlist_ok_spec (beginOp s) l).2.2.1⟩

/-- Witness for the amended claim C3 at a concrete state: the remove
button of a non-selected row is enabled and the DELETE goes through. -/
theorem claim_C3_witness :
    removeButtonDisabled
      { initialState with
          watchlist := ["AAPL", "MSFT"], selectedTicker := "AAPL" } "MSFT"
      = false ∧
    (removeTicker
        { initialState with
            watchlist := ["AAPL", "MSFT"], selectedTicker := "AAPL" } "MSFT"
        (Except.ok ⟨true, 200, ""⟩)
        (Except.ok ⟨some ["AAPL"]⟩)).watchlist = ["AAPL"] := by
  have h := claim_C3_amended
      { initialState with
          watchlist := ["AAPL", "MSFT"], selectedTicker := "AAPL" }
      "MSFT" "AAPL" ⟨true, 200, ""⟩ ["AAPL"]
  exact ⟨h.2.1 rfl rfl, (h.2.2.2 rfl).1⟩

/-- Claim C4: when any of the three detail fetches fails, none of the
four pieces of detail view state is mutated and an error naming the
detail-load operation is recorded. -/
theorem claim_C4_all_or_nothing (s : SessionState)
    (pr : Except String PricesPayload) (nr : Except String NewsPayload)
    (lr : Except String AnalysisRecord) (hsel : s.selectedTicker ≠ "")
    (hfail : (∃ m, pr = Except.error m) ∨ (∃ m, nr = Except.error m) ∨
      (∃ m, lr = Except.error m)) :
    (detailLoadEffect s pr nr lr).prices = s.prices ∧
    (detailLoadEffect s pr nr lr).news = s.news ∧
    (detailLoadEffect s pr nr lr).newsHasNext = s.newsHasNext ∧
    (detailLoadEffect s pr nr lr).latest = s.latest ∧
    ∃ msg, (detailLoadEffect s pr nr lr).error
      = "Failed loading detail: " ++ msg := by
  rcases pr with m | pp
  · refine ⟨?_, ?_, ?_, ?_, ⟨m, ?_⟩⟩ <;>
      simp [detailLoadEffect, loadTickerDetail, beginOp, hsel]
  · rcases nr with m | np
    · refine ⟨?_, ?_, ?_, ?_, ⟨m, ?_⟩⟩ <;>
        simp [detailLoadEffect, loadTickerDetail, beginOp, hsel]
    · rcases lr with m | lp
      · refine ⟨?_, ?_, ?_, ?_, ⟨m, ?_⟩⟩ <;>
          simp [detailLoadEffect, loadTickerDetail, beginOp, hsel]
      · rcases hfail with ⟨m, hm⟩ | ⟨m, hm⟩ | ⟨m, hm⟩ <;> simp at hm

/-- Witness for claim C4: a concrete detail load whose news fetch fails
with a 500 leaves the prices (and the rest of the view state) unchanged
and records a detail-load error. -/
theorem claim_C4_witness :
    (detailLoadEffect
      { initialState with selectedTicker := "AAPL", prices := [⟨1⟩] }
      (Except.ok ⟨some [⟨2⟩]⟩) (Except.error "500 news down")
      (Except.ok ⟨"done", "x"⟩)).prices = [⟨1⟩] ∧
    (∃ msg, (detailLoadEffect
      { initialState with selectedTicker := "AAPL", prices := [⟨1⟩] }
      (Except.ok ⟨some [⟨2⟩]⟩) (Except.error "500 news down")
      (Except.ok ⟨"done", "x"⟩)).error
        = "Failed loading detail: " ++ msg) := by
  have h := claim_C4_all_or_nothing
      { initialState with selectedTicker := "AAPL", prices := [⟨1⟩] }
      (Except.ok ⟨some [⟨2⟩]⟩) (Except.error "500 news down")
      (Except.ok ⟨"done", "x"⟩) (by decide)
      (Or.inr (Or.inl ⟨"500 news down", rfl⟩))
  exact ⟨h.1, h.2.2.2.2⟩

/-- Claim C5: `addTicker` first normalizes its argument (trim +
uppercase); an empty normalized ticker is a complete no-op, and on an
accepted POST followed by a successful refresh the normalized ticker
becomes the selection and the page resets to 1. -/
theorem claim_C5_add_normalizes (s : SessionState) (raw : String)
    (r : HttpResponse) (l : List String) :
    (∀ post rp, sanitizeTicker raw = "" → addTicker s raw post rp = s) ∧
    (sanitizeTicker raw ≠ "" → r.ok = true →
      (addTicker s raw (Except.ok r) (Except.ok ⟨some l⟩)).selectedTicker
        = sanitizeTicker raw ∧
      (addTicker s raw (Except.ok r) (Except.ok ⟨some l⟩)).newsPage = 1 ∧
      (addTicker s raw (Except.ok r) (Except.ok ⟨some l⟩)).watchlist = l ∧
      (addTicker s raw (Except.ok r) (Except.ok ⟨some l⟩)).error = "") := by
  constructor
  · intro post rp h
    simp [addTicker, h]
  · intro hne hok
    rw [addTicker_ok_result s raw r l hne (Or.inl hok)]
    exact ⟨rfl, rfl, (refreshWatchlist_ok_spec (beginOp s) l).1,
      (refreshWatchlist_ok_spec (beginOp s) l).2.2.1⟩

/-- Witness for claim C5: adding "msft " normalizes to "MSFT", which
becomes the selection with the page reset, against the refreshed server
list. -/
theorem claim_C5_witness :
    sanitizeTicker "msft " = "MSFT" ∧
    (addTicker
      { initialState with watchlist := ["AAPL"], selectedTicker := "AAPL" }
      "msft " (Except.ok ⟨true, 201, ""⟩)
      (Except.ok ⟨some ["AAPL", "MSFT"]⟩)).selectedTicker = "MSFT" ∧
    (addTicker
      { initialState with watchlist := ["AAPL"], selectedTicker := "AAPL" }
      "msft " (Except.ok ⟨true, 201, ""⟩)
      (Except.ok ⟨some ["AAPL", "MSFT"]⟩)).newsPage = 1 ∧
    (addTicker
      { initialState with watchlist := ["AAPL"], selectedTicker := "AAPL" }
      "msft " (Except.ok ⟨true, 201, ""⟩)
      (Except.ok ⟨some ["AAPL", "MSFT"]⟩)).watchlist = ["AAPL", "MSFT"] := by
  have h := (claim_C5_add_normalizes
      { initialState with watchlist := ["AAPL"], selectedTicker := "AAPL" }
      "msft " ⟨true, 201, ""⟩ ["AAPL", "MSFT"]).2 (by decide) rfl
  exact ⟨by decide, h.1.trans (by decide), h.2.1, h.2.2.1⟩

/-- Claim C7: a 409 (already present) POST response is handled exactly
like a 2xx one — same resulting state for any refresh outcome, no error
recorded, the normalized ticker selected, and the membership count in the
refreshed list preserved. -/
theorem claim_C7_conflict_is_success (s : SessionState) (raw b1 b2 : String)
    (rp : Except String WatchlistPayload) (l : List String)
    (h : sanitizeTicker raw ≠ "") :
    addTicker s raw (Except.ok ⟨false, 409, b1⟩) rp =
      addTicker s raw (Except.ok ⟨true, 200, b2⟩) rp ∧
    (addTicker s raw (Except.ok ⟨false, 409, b1⟩)
      (Except.ok ⟨some l⟩)).error = "" ∧
    (addTicker s raw (Except.ok ⟨false, 409, b1⟩)
      (Except.ok ⟨some l⟩)).selectedTicker = sanitizeTicker raw ∧
    (l.count (sanitizeTicker raw) = 1 →
      ((addTicker s raw (Except.ok ⟨false, 409, b1⟩)
        (Except.ok ⟨some l⟩)).watchlist).count (sanitizeTicker raw) = 1) := by
  refine ⟨addTicker_pass s raw ⟨false, 409, b1⟩ ⟨true, 200, b2⟩ rp rfl rfl,
    ?_, ?_, ?_⟩
  · rw [addTicker_ok_result s raw ⟨false, 409, b1⟩ l h (Or.inr rfl)]
    exact (refreshWatchlist_ok_spec (beginOp s) l).2.2.1
  · rw [addTicker_ok_result s raw ⟨false, 409, b1⟩ l h (Or.inr rfl)]
  · intro hc
    have hw : (addTicker s raw (Except.ok ⟨false, 409, b1⟩)
        (Except.ok ⟨some l⟩)).watchlist = l := by
      rw [addTicker_ok_result s raw ⟨false, 409, b1⟩ l h (Or.inr rfl)]
      exact (refreshWatchlist_ok_spec (beginOp s) l).1
    rw [hw]
    exact hc

/-- Witness for claim C7: re-adding AAPL with a 409 response records no
error, keeps AAPL selected, and keeps its membership count at 1. -/
theorem claim_C7_witness :
    (addTicker
      { initialState with watchlist := ["AAPL"], selectedTicker := "AAPL" }
      "AAPL" (Except.ok ⟨false, 409, "exists"⟩)
      (Except.ok ⟨some ["AAPL"]⟩)).error = "" ∧
    ((addTicker
      { initialState with watchlist := ["AAPL"], selectedTicker := "AAPL" }
      "AAPL" (Except.ok ⟨false, 409, "exists"⟩)
      (Except.ok ⟨some ["AAPL"]⟩)).watchlist).count
        (sanitizeTicker "AAPL") = 1 := by
  have h := claim_C7_conflict_is_success
      { initialState with watchlist := ["AAPL"], selectedTicker := "AAPL" }
      "AAPL" "exists" "" (Except.ok ⟨some ["AAPL"]⟩) ["AAPL"] (by decide)
  exact ⟨h.2.1, h.2.2.2 (by decide)⟩

/-- Claim C8: every operation raises `busy` on start and releases it on
every exit path, success and thrown failure alike. -/
theorem claim_C8_busy_discipline (s : SessionState) (raw t : String)
    (w1 w2 w3 : Except String WatchlistPayload)
    (post del : Except String HttpResponse)
    (pr : Except String PricesPayload) (nr : Except String NewsPayload)
    (lr : Except String AnalysisRecord)
    (hadd : sanitizeTicker raw ≠ "") (hsel : s.selectedTicker ≠ "") :
    (beginOp s).busy = true ∧
    (initialWatchlistEffect s w1).busy = false ∧
    (detailLoadEffect s pr nr lr).busy = false ∧
    (addTicker s raw post w2).busy = false ∧
    (removeTicker s t del w3).busy = false :=
  ⟨rfl, initialWatchlistEffect_busy s w1,
   detailLoadEffect_busy s pr nr lr hsel,
   addTicker_busy s raw post w2 hadd, removeTicker_busy s t del w3⟩

/-- Witness for claim C8: `busy` ends false both on a rejected watchlist
fetch and on an addTicker whose POST fails with a 500. -/
theorem claim_C8_witness :
    (initialWatchlistEffect { initialState with selectedTicker := "AAPL" }
      (Except.error "network down")).busy = false ∧
    (addTicker { initialState with selectedTicker := "AAPL" } "nflx"
      (Except.ok ⟨false, 500, "boom"⟩) (Except.ok ⟨none⟩)).busy = false := by
  have h := claim_C8_busy_discipline
      { initialState with selectedTicker := "AAPL" } "nflx" "AAPL"
      (Except.error "network down") (Except.ok ⟨none⟩)
      (Except.error "x") (Except.ok ⟨false, 500, "boom"⟩)
      (Except.ok ⟨true, 200, ""⟩) (Except.error "p") (Except.error "n")
      (Except.error "l") (by decide) (by decide)
  exact ⟨h.2.1, h.2.2.2.1⟩
